import Mathlib

/-!
Shallow embedding of the "Do You Love Me?" mini-game engine from
`src/modules/love-game.ts` (the love-game module of the valentine-wish
repository). JavaScript numbers are modelled as exact rationals `ℚ`
(every value produced by the embedded functions is therefore finite by
construction); `Math.random()` is modelled as an injected stream
`rng : ℕ → ℚ × ℚ` giving the pair drawn at each loop attempt, each
component assumed in `[0, 1)` where a claim needs it. DOM mutations and
collaborator notifications are modelled as an explicit list of `Effect`
values returned alongside the new state.
-/

/-- A 2-D position `{ x, y }` as used for the No button's offset. -/
structure Pos where
  x : ℚ
  y : ℚ
deriving DecidableEq, Repr

/-- Width/height of a DOM rect, as read from `getBoundingClientRect()`. -/
structure Bounds where
  width : ℚ
  height : ℚ
deriving DecidableEq, Repr

/-- Mirror of the source's `LoveGameState` record. -/
structure LoveGameState where
  noButtonPosition : Pos
  hasAnsweredYes : Bool
  evasionCount : ℕ
  noButtonScale : ℚ
  currentMessageIndex : ℕ
deriving DecidableEq, Repr

/-- The configuration fields of `LoveGameConfig` that the game logic reads
(the remaining fields are selectors and presentation text unused by the
embedded operations). -/
structure LoveGameConfig where
  shrinkThreshold : ℚ
  minButtonScale : ℚ
  pleadingMessages : List String
  celebrationTitle : String
  celebrationSubtitle : String
deriving DecidableEq, Repr

/-- Observable side effects: DOM render actions and the collaborator
callback, in the order the source performs them. -/
inductive Effect where
  | setButtonText (text : String)
  | moveButton (p : Pos) (scale : ℚ)
  | showPleading (msg : String)
  | clearCelebration
  | showCelebration
  | addHearts (n : ℕ)
  | addCelebrationMessage (title subtitle : String)
  | notifyCelebration
deriving DecidableEq, Repr

/-- `createInitialState` from the source. -/
def createInitialState : LoveGameState :=
  { noButtonPosition := ⟨0, 0⟩
    hasAnsweredYes := false
    evasionCount := 0
    noButtonScale := 1
    currentMessageIndex := 0 }

/-- The redraw condition of the do-while loop in `calculateEvasionPosition`:
the candidate is within 50 units of the current position on both axes. -/
def tooClose (p cur : Pos) : Prop :=
  |p.x - cur.x| < 50 ∧ |p.y - cur.y| < 50

instance (p cur : Pos) : Decidable (tooClose p cur) := by
  unfold tooClose; infer_instance

/-- The candidate drawn at attempt `i`: `Math.random() * safeMax` on each
axis, with the two random draws of attempt `i` given by `rng i`. -/
def candidateAt (rng : ℕ → ℚ × ℚ) (safeMaxX safeMaxY : ℚ) (i : ℕ) : Pos :=
  ⟨(rng i).1 * safeMaxX, (rng i).2 * safeMaxY⟩

/-- The do-while retry loop of `calculateEvasionPosition`: draw a candidate,
increment `attempts`, and redraw while `attempts < 10` and the candidate is
too close to the current position. Returns the accepted candidate together
with the number of attempts used. -/
def evasionLoop (rng : ℕ → ℚ × ℚ) (safeMaxX safeMaxY : ℚ) (cur : Pos)
    (attempts : ℕ) : Pos × ℕ :=
  let cand := candidateAt rng safeMaxX safeMaxY attempts
  if h : attempts + 1 < 10 ∧ tooClose cand cur then
    evasionLoop rng safeMaxX safeMaxY cur (attempts + 1)
  else
    (cand, attempts + 1)
termination_by 10 - attempts
decreasing_by omega

/-- `calculateEvasionPosition` from the source: clamp the available space to
`max 0 _` on each axis and run the retry loop starting at `attempts = 0`. -/
def calculateEvasionPosition (rng : ℕ → ℚ × ℚ) (container button : Bounds)
    (currentPosition : Pos) : Pos :=
  let maxX := container.width - button.width
  let maxY := container.height - button.height
  let safeMaxX := max 0 maxX
  let safeMaxY := max 0 maxY
  (evasionLoop rng safeMaxX safeMaxY currentPosition 0).1

/-- `calculateShrinkScale` from the source. -/
def calculateShrinkScale (evasionCount shrinkThreshold minScale : ℚ) : ℚ :=
  if evasionCount < shrinkThreshold then 1
  else
    let evasionsPastThreshold := evasionCount - shrinkThreshold
    let shrinkAmount := evasionsPastThreshold * (1 / 10)
    let newScale := 1 - shrinkAmount
    max minScale newScale

/-- `showPleadingMessage` from the source: look up
`messages[currentMessageIndex % messages.length]`, fall back to
"Please? 🥺" when the lookup is `undefined` (in JS an empty list gives
index `NaN` and an `undefined` lookup; here `List.get?` returns `none`),
and increment the cursor. Returns the new state and the displayed text. -/
def showPleadingMessage (s : LoveGameState) (config : LoveGameConfig) :
    LoveGameState × String :=
  let messages := config.pleadingMessages
  let message := messages.get? (s.currentMessageIndex % messages.length)
  ({ s with currentMessageIndex := s.currentMessageIndex + 1 },
   message.getD "Please? 🥺")

/-- `evadeNoButton` from the source: no-op when the game is already won;
otherwise compute a new position, bump the evasion count, rename the button
after the first evasion, recompute the shrink scale, apply position/scale,
and show a pleading message (which advances the message cursor). -/
def evadeNoButton (rng : ℕ → ℚ × ℚ) (button container : Bounds)
    (s : LoveGameState) (config : LoveGameConfig) :
    LoveGameState × List Effect :=
  if s.hasAnsweredYes then (s, [])
  else
    let newPosition := calculateEvasionPosition rng container button s.noButtonPosition
    let s1 := { s with noButtonPosition := newPosition,
                       evasionCount := s.evasionCount + 1 }
    let renameEffect := if s1.evasionCount = 1 then [Effect.setButtonText "Hmm..."] else []
    let newScale :=
      calculateShrinkScale (s1.evasionCount : ℚ) config.shrinkThreshold config.minButtonScale
    let s2 := { s1 with noButtonScale := newScale }
    let shown := showPleadingMessage s2 config
    (shown.1,
     renameEffect ++ [Effect.moveButton newPosition s2.noButtonScale,
                      Effect.showPleading shown.2])

/-- Iterated evasion: `evadeN … N` performs `N` successive calls to
`evadeNoButton`, the `n`-th call drawing its randomness from `rngs n`. -/
def evadeN (rngs : ℕ → ℕ → ℚ × ℚ) (button container : Bounds)
    (config : LoveGameConfig) (s : LoveGameState) : ℕ → LoveGameState
  | 0 => s
  | n + 1 =>
      (evadeNoButton (rngs n) button container
        (evadeN rngs button container config s n) config).1

/-- `triggerCelebration` from the source: unconditionally set
`hasAnsweredYes`, clear and show the celebration container, add 20 heart
particles unless reduced motion is preferred, and add the celebration
message. -/
def triggerCelebration (reducedMotion : Bool) (s : LoveGameState)
    (config : LoveGameConfig) : LoveGameState × List Effect :=
  ({ s with hasAnsweredYes := true },
   [Effect.clearCelebration, Effect.showCelebration] ++
     (if reducedMotion then [] else [Effect.addHearts 20]) ++
     [Effect.addCelebrationMessage config.celebrationTitle config.celebrationSubtitle])

/-- The Yes-button click handler installed by `setupYesButtonHandlers`:
only when `hasAnsweredYes` is still false does it call `triggerCelebration`
and fire the `onCelebration` collaborator callback. -/
def handleYesClick (reducedMotion : Bool) (s : LoveGameState)
    (config : LoveGameConfig) : LoveGameState × List Effect :=
  if s.hasAnsweredYes then (s, [])
  else
    let t := triggerCelebration reducedMotion s config
    (t.1, t.2 ++ [Effect.notifyCelebration])

/-- The state reset performed by `destroy` in `createLoveGame`: each of the
five state fields is assigned its default value in place. -/
def destroy (s : LoveGameState) : LoveGameState :=
  { s with noButtonPosition := ⟨0, 0⟩,
           hasAnsweredYes := false,
           evasionCount := 0,
           noButtonScale := 1,
           currentMessageIndex := 0 }

/-- A concrete config mirroring `DEFAULT_CONFIG`'s game-logic fields
(`shrinkThreshold: 5`, `minButtonScale: 0.3`) with a small message list,
used by witnesses. -/
def sampleConfig : LoveGameConfig :=
  { shrinkThreshold := 5
    minButtonScale := 3 / 10
    pleadingMessages := ["Are you sure? 🥺", "Really?? 💔", "Think again! 😢"]
    celebrationTitle := "Yay! 💖"
    celebrationSubtitle := "I knew it!" }

/-- A concrete already-answered state, used by witnesses. -/
def answeredState : LoveGameState :=
  { noButtonPosition := ⟨12, 34⟩
    hasAnsweredYes := true
    evasionCount := 7
    noButtonScale := 4 / 5
    currentMessageIndex := 7 }

/-- Core lemma about the retry loop, by downward induction on the remaining
budget: starting from any `attempts < 10`, the loop uses at least one and at
most `10` total attempts, returns exactly the candidate of its final draw,
exits early only when that candidate is not too close, and every draw it
rejected was too close. -/
theorem evasionLoop_spec (rng : ℕ → ℚ × ℚ) (sx sy : ℚ) (cur : Pos) :
    ∀ k attempts, attempts < 10 → 10 - attempts ≤ k →
      attempts < (evasionLoop rng sx sy cur attempts).2 ∧
      (evasionLoop rng sx sy cur attempts).2 ≤ 10 ∧
      (evasionLoop rng sx sy cur attempts).1 =
        candidateAt rng sx sy ((evasionLoop rng sx sy cur attempts).2 - 1) ∧
      ((evasionLoop rng sx sy cur attempts).2 < 10 →
        ¬ tooClose (evasionLoop rng sx sy cur attempts).1 cur) ∧
      (∀ j, attempts ≤ j → j + 1 < (evasionLoop rng sx sy cur attempts).2 →
        tooClose (candidateAt rng sx sy j) cur) := by
  intro k
  induction k with
  | zero => intro attempts h1 h2; omega
  | succ k ih =>
    intro attempts h1 h2
    rw [evasionLoop]
    split
    · next hcond =>
      have hrec := ih (attempts + 1) hcond.1 (by omega)
      refine ⟨by omega, hrec.2.1, hrec.2.2.1, hrec.2.2.2.1, ?_⟩
      intro j hj hj2
      rcases Nat.eq_or_lt_of_le hj with rfl | hlt
      · exact hcond.2
      · exact hrec.2.2.2.2 j hlt hj2
    · next hcond =>
      refine ⟨by omega, by omega, by simp, ?_, ?_⟩
      · intro hlt htc
        exact hcond ⟨hlt, htc⟩
      · intro j hj hj2
        exact absurd hj2 (by omega)

/-- C2: `calculateShrinkScale` returns exactly `1` below the threshold and
`max minScale (1 - (count - threshold) * (1/10))` at or above it; for any
`minScale` in the spec's config domain `(0, 1]` the result lies in
`[minScale, 1]`; with threshold `5` and `minScale = 3/10` the result is
`4/5` at count `7` and `3/10` at count `20`. -/
theorem calculateShrinkScale_spec (evasionCount shrinkThreshold minScale : ℚ)
    (hm0 : 0 < minScale) (hm1 : minScale ≤ 1) :
    (evasionCount < shrinkThreshold →
      calculateShrinkScale evasionCount shrinkThreshold minScale = 1) ∧
    (shrinkThreshold ≤ evasionCount →
      calculateShrinkScale evasionCount shrinkThreshold minScale =
        max minScale (1 - (evasionCount - shrinkThreshold) * (1 / 10))) ∧
    minScale ≤ calculateShrinkScale evasionCount shrinkThreshold minScale ∧
    calculateShrinkScale evasionCount shrinkThreshold minScale ≤ 1 ∧
    calculateShrinkScale 7 5 (3 / 10) = 4 / 5 ∧
    calculateShrinkScale 20 5 (3 / 10) = 3 / 10 := by
  unfold calculateShrinkScale
  by_cases hlt : evasionCount < shrinkThreshold
  · rw [if_pos hlt]
    refine ⟨fun _ => rfl, fun hle => absurd hlt (not_lt.mpr hle), hm1, le_refl 1, ?_, ?_⟩
    · norm_num [max_def]
    · norm_num [max_def]
  · rw [if_neg hlt]
    push_neg at hlt
    have hnn : 0 ≤ (evasionCount - shrinkThreshold) * (1 / 10) :=
      mul_nonneg (by linarith) (by norm_num)
    refine ⟨fun hc => absurd hc (not_lt.mpr hlt), fun _ => rfl, le_max_left _ _,
      max_le hm1 (by linarith), ?_, ?_⟩
    · norm_num [max_def]
    · norm_num [max_def]

/-- Witness for C2 at `count = 7`, `threshold = 5`, `minScale = 3/10`. -/
theorem calculateShrinkScale_spec_wit :
    ((7 : ℚ) < 5 → calculateShrinkScale 7 5 (3 / 10) = 1) ∧
    ((5 : ℚ) ≤ 7 → calculateShrinkScale 7 5 (3 / 10) =
      max (3 / 10) (1 - ((7 : ℚ) - 5) * (1 / 10))) ∧
    (3 / 10 : ℚ) ≤ calculateShrinkScale 7 5 (3 / 10) ∧
    calculateShrinkScale 7 5 (3 / 10) ≤ 1 ∧
    calculateShrinkScale 7 5 (3 / 10) = 4 / 5 ∧
    calculateShrinkScale 20 5 (3 / 10) = 3 / 10 :=
  calculateShrinkScale_spec 7 5 (3 / 10) (by norm_num) (by norm_num)

/-- C3: once `hasAnsweredYes` is true, `evadeNoButton` returns the state
unchanged and performs no effects; in particular `noButtonPosition`,
`evasionCount`, `noButtonScale` and `currentMessageIndex` are untouched. -/
theorem evadeNoButton_noop_when_answered (rng : ℕ → ℚ × ℚ)
    (button container : Bounds) (s : LoveGameState) (config : LoveGameConfig)
    (h : s.hasAnsweredYes = true) :
    evadeNoButton rng button container s config = (s, []) := by
  simp [evadeNoButton, h]

/-- Witness for C3 on a concrete already-answered state. -/
theorem evadeNoButton_noop_when_answered_wit :
    evadeNoButton (fun _ => (1 / 2, 1 / 2)) ⟨80, 40⟩ ⟨500, 400⟩
      answeredState sampleConfig = (answeredState, []) :=
  evadeNoButton_noop_when_answered (fun _ => (1 / 2, 1 / 2)) ⟨80, 40⟩ ⟨500, 400⟩
    answeredState sampleConfig rfl

/-- C4 counterexample: on an already-answered state, a direct call to
`triggerCelebration` is not render-free — its effect list is nonempty (it
clears and re-renders the celebration container), refuting the claim that
the second call "does not re-render". -/
theorem triggerCelebration_rerenders_when_answered :
    answeredState.hasAnsweredYes = true ∧
    (triggerCelebration false answeredState sampleConfig).2 ≠ [] := by
  constructor
  · rfl
  · simp [triggerCelebration]

/-- C4 (amended): a second `triggerCelebration` call leaves the state record
identical, and the Yes-click handler installed by `setupYesButtonHandlers`
skips the call entirely once `hasAnsweredYes` is true, so no render or
collaborator notification fires through the handler; `triggerCelebration`
itself, however, unconditionally re-renders. -/
theorem celebrate_second_call_frame (reducedMotion : Bool) (s : LoveGameState)
    (config : LoveGameConfig) (h : s.hasAnsweredYes = true) :
    (triggerCelebration reducedMotion s config).1 = s ∧
    handleYesClick reducedMotion s config = (s, []) := by
  constructor
  · cases s
    simp_all [triggerCelebration]
  · simp [handleYesClick, h]

/-- Witness for C4 (amended) at a concrete already-answered state. -/
theorem celebrate_second_call_frame_wit :
    (triggerCelebration false answeredState sampleConfig).1 = answeredState ∧
    handleYesClick false answeredState sampleConfig = (answeredState, []) :=
  celebrate_second_call_frame false answeredState sampleConfig rfl

/-- C6: the first `triggerCelebration` call on an unanswered state sets
`hasAnsweredYes` and leaves `noButtonPosition`, `evasionCount` and
`noButtonScale` at exactly their pre-call values. -/
theorem triggerCelebration_first_call (reducedMotion : Bool)
    (s : LoveGameState) (config : LoveGameConfig)
    (h : s.hasAnsweredYes = false) :
    (triggerCelebration reducedMotion s config).1.hasAnsweredYes = true ∧
    (triggerCelebration reducedMotion s config).1.noButtonPosition = s.noButtonPosition ∧
    (triggerCelebration reducedMotion s config).1.evasionCount = s.evasionCount ∧
    (triggerCelebration reducedMotion s config).1.noButtonScale = s.noButtonScale := by
  simp [triggerCelebration]

/-- Witness for C6 on the fresh state. -/
theorem triggerCelebration_first_call_wit :
    (triggerCelebration false createInitialState sampleConfig).1.hasAnsweredYes = true ∧
    (triggerCelebration false createInitialState sampleConfig).1.noButtonPosition =
      createInitialState.noButtonPosition ∧
    (triggerCelebration false createInitialState sampleConfig).1.evasionCount =
      createInitialState.evasionCount ∧
    (triggerCelebration false createInitialState sampleConfig).1.noButtonScale =
      createInitialState.noButtonScale :=
  triggerCelebration_first_call false createInitialState sampleConfig rfl

/-- C10: `destroy` resets every state field to the values produced by
`createInitialState`, for any state whatsoever. -/
theorem destroy_resets_to_fresh_state (s : LoveGameState) :
    destroy s = createInitialState := by
  cases s
  rfl

/-- One unanswered `evadeNoButton` call bumps `evasionCount` and
`currentMessageIndex` by exactly 1 and leaves `hasAnsweredYes` false. -/
theorem evadeNoButton_step (rng : ℕ → ℚ × ℚ) (button container : Bounds)
    (s : LoveGameState) (config : LoveGameConfig)
    (h : s.hasAnsweredYes = false) :
    (evadeNoButton rng button container s config).1.evasionCount = s.evasionCount + 1 ∧
    (evadeNoButton rng button container s config).1.currentMessageIndex =
      s.currentMessageIndex + 1 ∧
    (evadeNoButton rng button container s config).1.hasAnsweredYes = false := by
  simp [evadeNoButton, h, showPleadingMessage]

/-- C5: over any sequence of `N` evasions starting from an unanswered state
(`hasAnsweredYes` stays false throughout, as each call preserves it),
`evasionCount` grows by exactly `N` and `currentMessageIndex` grows by
exactly `N` — hence also by `N` modulo the message-list length. -/
theorem evadeN_lockstep (rngs : ℕ → ℕ → ℚ × ℚ) (button container : Bounds)
    (config : LoveGameConfig) (s : LoveGameState)
    (h : s.hasAnsweredYes = false) (N : ℕ) :
    (evadeN rngs button container config s N).evasionCount = s.evasionCount + N ∧
    (evadeN rngs button container config s N).currentMessageIndex =
      s.currentMessageIndex + N ∧
    (evadeN rngs button container config s N).currentMessageIndex %
        config.pleadingMessages.length =
      (s.currentMessageIndex + N) % config.pleadingMessages.length ∧
    (evadeN rngs button container config s N).hasAnsweredYes = false := by
  induction N with
  | zero => simpa [evadeN] using h
  | succ n ih =>
    have hstep := evadeNoButton_step (rngs n) button container
      (evadeN rngs button container config s n) config ih.2.2.2
    refine ⟨?_, ?_, ?_, ?_⟩
    · show (evadeNoButton (rngs n) button container
        (evadeN rngs button container config s n) config).1.evasionCount = _
      rw [hstep.1, ih.1, Nat.add_assoc]
    · show (evadeNoButton (rngs n) button container
        (evadeN rngs button container config s n) config).1.currentMessageIndex = _
      rw [hstep.2.1, ih.2.1, Nat.add_assoc]
    · show (evadeNoButton (rngs n) button container
        (evadeN rngs button container config s n) config).1.currentMessageIndex % _ = _
      rw [hstep.2.1, ih.2.1, Nat.add_assoc]
    · exact hstep.2.2

/-- Witness for C5: three evasions from the fresh state. -/
theorem evadeN_lockstep_wit :
    (evadeN (fun _ _ => (1 / 2, 1 / 2)) ⟨80, 40⟩ ⟨500, 400⟩ sampleConfig
        createInitialState 3).evasionCount = createInitialState.evasionCount + 3 ∧
    (evadeN (fun _ _ => (1 / 2, 1 / 2)) ⟨80, 40⟩ ⟨500, 400⟩ sampleConfig
        createInitialState 3).currentMessageIndex =
      createInitialState.currentMessageIndex + 3 ∧
    (evadeN (fun _ _ => (1 / 2, 1 / 2)) ⟨80, 40⟩ ⟨500, 400⟩ sampleConfig
        createInitialState 3).currentMessageIndex %
        sampleConfig.pleadingMessages.length =
      (createInitialState.currentMessageIndex + 3) %
        sampleConfig.pleadingMessages.length ∧
    (evadeN (fun _ _ => (1 / 2, 1 / 2)) ⟨80, 40⟩ ⟨500, 400⟩ sampleConfig
        createInitialState 3).hasAnsweredYes = false :=
  evadeN_lockstep (fun _ _ => (1 / 2, 1 / 2)) ⟨80, 40⟩ ⟨500, 400⟩ sampleConfig
    createInitialState rfl 3

/-- C9: with an empty `pleadingMessages` list, `showPleadingMessage` does
not fail: the out-of-range lookup yields `none` (JS: `undefined`), the
fallback "Please? 🥺" is displayed, and the cursor still advances by 1;
through `evadeNoButton` on an unanswered state the cursor likewise advances
and the fallback message is the one shown. -/
theorem showPleadingMessage_empty_safe (rng : ℕ → ℚ × ℚ)
    (button container : Bounds) (s : LoveGameState) (config : LoveGameConfig)
    (hmp : config.pleadingMessages = []) :
    (showPleadingMessage s config).2 = "Please? 🥺" ∧
    (showPleadingMessage s config).1.currentMessageIndex = s.currentMessageIndex + 1 ∧
    (s.hasAnsweredYes = false →
      (evadeNoButton rng button container s config).1.currentMessageIndex =
        s.currentMessageIndex + 1 ∧
      Effect.showPleading "Please? 🥺" ∈ (evadeNoButton rng button container s config).2) := by
  refine ⟨by simp [showPleadingMessage, hmp], by simp [showPleadingMessage], ?_⟩
  intro h
  constructor
  · exact (evadeNoButton_step rng button container s config h).2.1
  · simp [evadeNoButton, h, showPleadingMessage, hmp]

/-- Witness for C9: empty message list, fresh state. -/
theorem showPleadingMessage_empty_safe_wit :
    (showPleadingMessage createInitialState
        { sampleConfig with pleadingMessages := [] }).2 = "Please? 🥺" ∧
    (showPleadingMessage createInitialState
        { sampleConfig with pleadingMessages := [] }).1.currentMessageIndex =
      createInitialState.currentMessageIndex + 1 ∧
    (createInitialState.hasAnsweredYes = false →
      (evadeNoButton (fun _ => (1 / 2, 1 / 2)) ⟨80, 40⟩ ⟨500, 400⟩ createInitialState
          { sampleConfig with pleadingMessages := [] }).1.currentMessageIndex =
        createInitialState.currentMessageIndex + 1 ∧
      Effect.showPleading "Please? 🥺" ∈
        (evadeNoButton (fun _ => (1 / 2, 1 / 2)) ⟨80, 40⟩ ⟨500, 400⟩ createInitialState
          { sampleConfig with pleadingMessages := [] }).2) :=
  showPleadingMessage_empty_safe (fun _ => (1 / 2, 1 / 2)) ⟨80, 40⟩ ⟨500, 400⟩
    createInitialState { sampleConfig with pleadingMessages := [] } rfl

/-- C1: for every container and control bounds and any current position,
`calculateEvasionPosition` returns coordinates inside
`[0, max 0 (container_w - control_w)] × [0, max 0 (container_h - control_h)]`,
provided each random draw lies in `[0, 1)` as `Math.random()` guarantees
(in this rational-number model every value is finite by construction). -/
theorem calculateEvasionPosition_in_bounds (rng : ℕ → ℚ × ℚ)
    (container button : Bounds) (cur : Pos)
    (hr : ∀ i, 0 ≤ (rng i).1 ∧ (rng i).1 < 1 ∧ 0 ≤ (rng i).2 ∧ (rng i).2 < 1) :
    0 ≤ (calculateEvasionPosition rng container button cur).x ∧
    (calculateEvasionPosition rng container button cur).x ≤
      max 0 (container.width - button.width) ∧
    0 ≤ (calculateEvasionPosition rng container button cur).y ∧
    (calculateEvasionPosition rng container button cur).y ≤
      max 0 (container.height - button.height) := by
  have hsx : (0 : ℚ) ≤ max 0 (container.width - button.width) := le_max_left _ _
  have hsy : (0 : ℚ) ≤ max 0 (container.height - button.height) := le_max_left _ _
  have hspec := evasionLoop_spec rng (max 0 (container.width - button.width))
    (max 0 (container.height - button.height)) cur 10 0 (by norm_num) (by norm_num)
  have heq : calculateEvasionPosition rng container button cur =
      candidateAt rng (max 0 (container.width - button.width))
        (max 0 (container.height - button.height))
        ((evasionLoop rng (max 0 (container.width - button.width))
          (max 0 (container.height - button.height)) cur 0).2 - 1) := by
    simp only [calculateEvasionPosition]
    exact hspec.2.2.1
  obtain ⟨h1, h2, h3, h4⟩ := hr ((evasionLoop rng (max 0 (container.width - button.width))
    (max 0 (container.height - button.height)) cur 0).2 - 1)
  rw [heq]
  simp only [candidateAt]
  exact ⟨mul_nonneg h1 hsx, mul_le_of_le_one_left hsx h2.le,
    mul_nonneg h3 hsy, mul_le_of_le_one_left hsy h4.le⟩

/-- Witness for C1: constant draw `1/2`, container `500×400`, control
`80×40`, current position `(430, 90)`. -/
theorem calculateEvasionPosition_in_bounds_wit :
    0 ≤ (calculateEvasionPosition (fun _ => (1 / 2, 1 / 2)) ⟨500, 400⟩ ⟨80, 40⟩ ⟨430, 90⟩).x ∧
    (calculateEvasionPosition (fun _ => (1 / 2, 1 / 2)) ⟨500, 400⟩ ⟨80, 40⟩ ⟨430, 90⟩).x ≤
      max 0 ((500 : ℚ) - 80) ∧
    0 ≤ (calculateEvasionPosition (fun _ => (1 / 2, 1 / 2)) ⟨500, 400⟩ ⟨80, 40⟩ ⟨430, 90⟩).y ∧
    (calculateEvasionPosition (fun _ => (1 / 2, 1 / 2)) ⟨500, 400⟩ ⟨80, 40⟩ ⟨430, 90⟩).y ≤
      max 0 ((400 : ℚ) - 40) :=
  calculateEvasionPosition_in_bounds (fun _ => (1 / 2, 1 / 2)) ⟨500, 400⟩ ⟨80, 40⟩
    ⟨430, 90⟩ (fun _ => by norm_num)

/-- C8: the retry loop of `calculateEvasionPosition` uses between 1 and 10
attempts, returns exactly the candidate of its final draw (after exhausting
the budget the last candidate is accepted regardless of separation), exits
before the budget only when the accepted candidate is not within 50 units
of the current position on both axes, and every redraw happened only while
the drawn candidate was that close — so the operation is total and never
fails for any input. -/
theorem calculateEvasionPosition_retry_budget (rng : ℕ → ℚ × ℚ)
    (container button : Bounds) (cur : Pos) :
    calculateEvasionPosition rng container button cur =
      (evasionLoop rng (max 0 (container.width - button.width))
        (max 0 (container.height - button.height)) cur 0).1 ∧
    1 ≤ (evasionLoop rng (max 0 (container.width - button.width))
        (max 0 (container.height - button.height)) cur 0).2 ∧
    (evasionLoop rng (max 0 (container.width - button.width))
        (max 0 (container.height - button.height)) cur 0).2 ≤ 10 ∧
    (evasionLoop rng (max 0 (container.width - button.width))
        (max 0 (container.height - button.height)) cur 0).1 =
      candidateAt rng (max 0 (container.width - button.width))
        (max 0 (container.height - button.height))
        ((evasionLoop rng (max 0 (container.width - button.width))
          (max 0 (container.height - button.height)) cur 0).2 - 1) ∧
    ((evasionLoop rng (max 0 (container.width - button.width))
        (max 0 (container.height - button.height)) cur 0).2 < 10 →
      ¬ tooClose (evasionLoop rng (max 0 (container.width - button.width))
        (max 0 (container.height - button.height)) cur 0).1 cur) ∧
    (∀ j, j + 1 < (evasionLoop rng (max 0 (container.width - button.width))
        (max 0 (container.height - button.height)) cur 0).2 →
      tooClose (candidateAt rng (max 0 (container.width - button.width))
        (max 0 (container.height - button.height)) j) cur) := by
  have hspec := evasionLoop_spec rng (max 0 (container.width - button.width))
    (max 0 (container.height - button.height)) cur 10 0 (by norm_num) (by norm_num)
  exact ⟨by simp only [calculateEvasionPosition], hspec.1, hspec.2.1, hspec.2.2.1,
    hspec.2.2.2.1, fun j => hspec.2.2.2.2 j (Nat.zero_le j)⟩

/-- Witness for C8 at a concrete input. -/
theorem calculateEvasionPosition_retry_budget_wit :
    calculateEvasionPosition (fun _ => (1 / 2, 1 / 2)) ⟨500, 400⟩ ⟨80, 40⟩ ⟨0, 0⟩ =
      (evasionLoop (fun _ => (1 / 2, 1 / 2)) (max 0 ((500 : ℚ) - 80))
        (max 0 ((400 : ℚ) - 40)) ⟨0, 0⟩ 0).1 ∧
    1 ≤ (evasionLoop (fun _ => (1 / 2, 1 / 2)) (max 0 ((500 : ℚ) - 80))
        (max 0 ((400 : ℚ) - 40)) ⟨0, 0⟩ 0).2 ∧
    (evasionLoop (fun _ => (1 / 2, 1 / 2)) (max 0 ((500 : ℚ) - 80))
        (max 0 ((400 : ℚ) - 40)) ⟨0, 0⟩ 0).2 ≤ 10 ∧
    (evasionLoop (fun _ => (1 / 2, 1 / 2)) (max 0 ((500 : ℚ) - 80))
        (max 0 ((400 : ℚ) - 40)) ⟨0, 0⟩ 0).1 =
      candidateAt (fun _ => (1 / 2, 1 / 2)) (max 0 ((500 : ℚ) - 80))
        (max 0 ((400 : ℚ) - 40))
        ((evasionLoop (fun _ => (1 / 2, 1 / 2)) (max 0 ((500 : ℚ) - 80))
          (max 0 ((400 : ℚ) - 40)) ⟨0, 0⟩ 0).2 - 1) ∧
    ((evasionLoop (fun _ => (1 / 2, 1 / 2)) (max 0 ((500 : ℚ) - 80))
        (max 0 ((400 : ℚ) - 40)) ⟨0, 0⟩ 0).2 < 10 →
      ¬ tooClose (evasionLoop (fun _ => (1 / 2, 1 / 2)) (max 0 ((500 : ℚ) - 80))
        (max 0 ((400 : ℚ) - 40)) ⟨0, 0⟩ 0).1 ⟨0, 0⟩) ∧
    (∀ j, j + 1 < (evasionLoop (fun _ => (1 / 2, 1 / 2)) (max 0 ((500 : ℚ) - 80))
        (max 0 ((400 : ℚ) - 40)) ⟨0, 0⟩ 0).2 →
      tooClose (candidateAt (fun _ => (1 / 2, 1 / 2)) (max 0 ((500 : ℚ) - 80))
        (max 0 ((400 : ℚ) - 40)) j) ⟨0, 0⟩) :=
  calculateEvasionPosition_retry_budget (fun _ => (1 / 2, 1 / 2)) ⟨500, 400⟩
    ⟨80, 40⟩ ⟨0, 0⟩

/-- C7 counterexample: with container `100×400` and control `200×40` the
horizontal axis is degenerate (`max 0 (100 - 200) = 0`) yet, for the draw
stream constantly `1/2` (a value `Math.random()` can return),
`calculateEvasionPosition` yields `(0, 180)`, not `(0, 0)` — refuting
"returns (0,0) whenever max_x == 0 **or** max_y == 0". -/
theorem calculateEvasionPosition_one_degenerate_axis_cex :
    max 0 ((100 : ℚ) - 200) = 0 ∧
    calculateEvasionPosition (fun _ => (1 / 2, 1 / 2)) ⟨100, 400⟩ ⟨200, 40⟩ ⟨0, 0⟩ =
      ⟨0, 180⟩ ∧
    (⟨0, 180⟩ : Pos) ≠ (⟨0, 0⟩ : Pos) := by
  refine ⟨by norm_num [max_def], ?_, by simp⟩
  simp only [calculateEvasionPosition]
  rw [evasionLoop]
  rw [dif_neg]
  · norm_num [candidateAt, max_def]
  · rintro ⟨-, hc⟩
    norm_num [tooClose, candidateAt, max_def, abs_lt] at hc

/-- C7 (amended): whenever **both** axes are degenerate
(`max 0 (container_w - control_w) = 0` and
`max 0 (container_h - control_h) = 0`), `calculateEvasionPosition` returns
`(0, 0)` deterministically — for every draw stream — and being a total
function it cannot throw; when only one axis is degenerate, just that
coordinate is forced to `0`. In particular container `100×50` with control
`200×200` gives `(0, 0)`. -/
theorem calculateEvasionPosition_degenerate (rng : ℕ → ℚ × ℚ)
    (container button : Bounds) (cur : Pos)
    (hx : max 0 (container.width - button.width) = 0)
    (hy : max 0 (container.height - button.height) = 0) :
    calculateEvasionPosition rng container button cur = ⟨0, 0⟩ := by
  have hspec := (evasionLoop_spec rng 0 0 cur 10 0 (by norm_num) (by norm_num)).2.2.1
  simp only [calculateEvasionPosition]
  rw [hx, hy, hspec]
  simp [candidateAt]

/-- Witness for C7 (amended): the spec's scenario, container `100×50`
against control `200×200`, returns `(0, 0)`. -/
theorem calculateEvasionPosition_degenerate_wit :
    calculateEvasionPosition (fun _ => (1 / 2, 1 / 2)) ⟨100, 50⟩ ⟨200, 200⟩ ⟨0, 0⟩ =
      ⟨0, 0⟩ :=
  calculateEvasionPosition_degenerate (fun _ => (1 / 2, 1 / 2)) ⟨100, 50⟩ ⟨200, 200⟩
    ⟨0, 0⟩ (by norm_num [max_def]) (by norm_num [max_def])
